import Mathlib

/-!
Shallow embedding of the CSV ingestion and conversion-integrity pipeline of
`src/main.py` (download auto-processor).

Modelling conventions:
- pandas DataFrames are `DataFrame`: an ordered list of named, dtyped columns.
- Cell values are `CellVal`: a missing marker (NaN/None), a number, a string,
  or a boolean. Machine floats are modelled as exact rationals `Q` (an
  integer numerator over a positive natural denominator, compared by
  cross-multiplication; kept executable for concrete evaluation).
- External library behaviour (chardet, pandas `read_csv` / `read_excel`) is
  passed in as explicit oracle arguments: each repository function is a pure
  Lean function of the oracle responses, mirroring the Python control flow.
- Python exceptions are modelled with `Option` / `Except Unit`.
-/

set_option autoImplicit false

namespace AutoProc

/-- An exact rational modelling a Python float: numerator over a positive
denominator. Values are not kept normalized; every comparison the pipeline
performs goes through the semantic operations below. -/
structure Q where
  num : Int
  den : Nat
deriving DecidableEq, Repr

/-- Embed an integer. -/
def qInt (n : Int) : Q := { num := n, den := 1 }

/-- Strict order by cross-multiplication (denominators positive). -/
def qLt (a b : Q) : Bool := a.num * (b.den : Int) < b.num * (a.den : Int)

/-- Semantic equality by cross-multiplication. -/
def qEqv (a b : Q) : Bool := a.num * (b.den : Int) == b.num * (a.den : Int)

/-- Exact difference. -/
def qSub (a b : Q) : Q :=
  { num := a.num * (b.den : Int) - b.num * (a.den : Int), den := a.den * b.den }

/-- Absolute value. -/
def qAbs (q : Q) : Q := { num := if q.num < 0 then -q.num else q.num, den := q.den }

/-- `float -> int64` cast used by `astype(int)`: truncation toward zero. -/
def truncQ (q : Q) : Int := q.num.tdiv (q.den : Int)

/-- Whether the float equals its integer truncation (no fractional part). -/
def qIsInt (q : Q) : Bool := q.num == truncQ q * (q.den : Int)

/-- Pandas column dtypes relevant to this pipeline. -/
inductive Dtype where
  | int64
  | float64
  | objectD
  | boolD
deriving DecidableEq, Repr

/-- Whether `pd.api.types.is_numeric_dtype` holds of a dtype (bool counts). -/
def isNumericDtype : Dtype → Bool
  | Dtype.int64 => true
  | Dtype.float64 => true
  | Dtype.boolD => true
  | Dtype.objectD => false

/-- One cell of a DataFrame. `missing` stands for NaN/None. -/
inductive CellVal where
  | missing
  | num (q : Q)
  | str (s : String)
  | boolV (b : Bool)
deriving DecidableEq, Repr

/-- `pd.isna` on a scalar cell. -/
def isNaCell : CellVal → Bool
  | CellVal.missing => true
  | _ => false

/-- One named pandas column. -/
structure Column where
  name : String
  dtype : Dtype
  vals : List CellVal
deriving DecidableEq, Repr

/-- A pandas DataFrame: ordered named columns (names unique per the data
model; rows aligned by index). -/
structure DataFrame where
  cols : List Column
deriving DecidableEq, Repr

def nCols (df : DataFrame) : Nat := df.cols.length

/-- Row count, as in `df.shape[0]` (all columns share one length). -/
def nRows (df : DataFrame) : Nat :=
  match df.cols with
  | [] => 0
  | c :: _ => c.vals.length

/-- `df.shape`. -/
def shape (df : DataFrame) : Nat × Nat := (nRows df, nCols df)

/-- `list(df.columns)`. -/
def colNames (df : DataFrame) : List String := df.cols.map (fun c => c.name)

/-- `df.empty`: true when either axis has length zero. -/
def dfEmpty (df : DataFrame) : Bool := nRows df == 0 || nCols df == 0

/-- Column lookup `df[name]` (names unique, first match). -/
def findCol (df : DataFrame) (name : String) : Option Column :=
  df.cols.find? (fun c => c.name == name)

/-- `df.iloc[i][name]`: raises (`Except.error`) when the column is absent or
the row index is out of range. -/
def getCell (df : DataFrame) (i : Nat) (name : String) : Except Unit CellVal :=
  match findCol df name with
  | none => Except.error ()
  | some c =>
    match c.vals.get? i with
    | some v => Except.ok v
    | none => Except.error ()

/-! ### Encoding detector (`detect_file_encoding`, main.py lines 51-64) -/

/-- The dictionary returned by `chardet.detect`. -/
structure ChardetResult where
  encoding : Option String
  confidence : Q
deriving DecidableEq, Repr

/-- The 0.7 confidence threshold. -/
def confidenceThreshold : Q := { num := 7, den := 10 }

/-- `detect_file_encoding`: return the detected encoding when the Python
condition `detected_encoding and confidence > 0.7` holds (truthiness: the
string must be non-None and non-empty), else fall back to utf-8. -/
def detect_file_encoding (r : ChardetResult) : String :=
  match r.encoding with
  | some e => if !e.isEmpty && qLt confidenceThreshold r.confidence then e else "utf-8"
  | none => "utf-8"

/-! ### Resilient CSV reader (`read_csv_with_encoding`,
`try_parse_csv_with_strategy`, main.py lines 67-136) -/

/-- Keyword arguments of one `pd.read_csv` call (`low_memory=False` always). -/
structure ParseStrategy where
  engine : String
  onBadLines : String
  quoting : Nat
  delimiter : Char
deriving DecidableEq, Repr

/-- `csv.QUOTE_MINIMAL`. -/
def QUOTE_MINIMAL : Nat := 0
/-- `csv.QUOTE_ALL`. -/
def QUOTE_ALL : Nat := 1
/-- `csv.QUOTE_NONE`. -/
def QUOTE_NONE : Nat := 3

/-- The parameters of the initial `pd.read_csv(file, encoding=enc,
low_memory=False)` call: pandas defaults. -/
def defaultStrategy : ParseStrategy :=
  { engine := "c", onBadLines := "error", quoting := QUOTE_MINIMAL, delimiter := ',' }

/-- Outcome of one `pd.read_csv` call, as the repository distinguishes them:
success, `UnicodeDecodeError`/`UnicodeError`, `pd.errors.ParserError` (with
its message), or any other exception. -/
inductive PdOutcome where
  | ok (df : DataFrame)
  | unicodeError
  | parserError (msg : String)
  | otherError
deriving DecidableEq, Repr

/-- A pandas oracle: the (deterministic) outcome of parsing the fixed file
under a given encoding and strategy. -/
def PdRead : Type := String → ParseStrategy → PdOutcome

/-- `try_parse_csv_with_strategy`: run one `pd.read_csv` call, catching every
exception and returning `None` on any failure. -/
def try_parse_csv_with_strategy (p : PdRead) (enc : String) (s : ParseStrategy) :
    Option DataFrame :=
  match p enc s with
  | PdOutcome.ok df => some df
  | _ => none

/-- Lower-case a character sequence (`str.lower`). -/
def lowerChars (cs : List Char) : List Char := cs.map Char.toLower

def isPrefixChars : List Char → List Char → Bool
  | [], _ => true
  | _ :: _, [] => false
  | a :: as, b :: bs => a == b && isPrefixChars as bs

def isInfixChars (needle : List Char) : List Char → Bool
  | [] => needle.isEmpty
  | c :: t => isPrefixChars needle (c :: t) || isInfixChars needle t

/-- The repository's malformed-row test:
`"expected" in error_msg.lower() and "fields" in error_msg.lower()`. -/
def isFieldMismatch (msg : String) : Bool :=
  let l := lowerChars msg.data
  isInfixChars "expected".data l && isInfixChars "fields".data l

/-- The five fallback strategies of `read_csv_with_encoding`, in source
order. -/
def fallbackStrategies : List ParseStrategy :=
  [ { engine := "python", onBadLines := "skip", quoting := QUOTE_MINIMAL, delimiter := ',' },
    { engine := "python", onBadLines := "warn", quoting := QUOTE_MINIMAL, delimiter := ',' },
    { engine := "c", onBadLines := "error", quoting := QUOTE_ALL, delimiter := ',' },
    { engine := "c", onBadLines := "error", quoting := QUOTE_NONE, delimiter := ',' },
    { engine := "python", onBadLines := "warn", quoting := QUOTE_ALL, delimiter := ',' } ]

/-- The inner fallback loop: first strategy whose parse succeeds. -/
def firstSuccess (p : PdRead) (enc : String) : List ParseStrategy → Option DataFrame
  | [] => none
  | s :: rest =>
    match try_parse_csv_with_strategy p enc s with
    | some df => some df
    | none => firstSuccess p enc rest

/-- The encoding loop of `read_csv_with_encoding` (main.py lines 97-136). -/
def tryEncodings (p : PdRead) : List String → Option DataFrame
  | [] => none
  | enc :: rest =>
    match p enc defaultStrategy with
    | PdOutcome.ok df => some df
    | PdOutcome.unicodeError => tryEncodings p rest
    | PdOutcome.parserError msg =>
      if isFieldMismatch msg then
        match firstSuccess p enc fallbackStrategies with
        | some df => some df
        | none => tryEncodings p rest
      else tryEncodings p rest
    | PdOutcome.otherError => tryEncodings p rest

/-- Order-preserving de-duplication, keeping first occurrences
(`list(dict.fromkeys(...))`). -/
def dedupFirst : List String → List String
  | [] => []
  | x :: xs => x :: (dedupFirst xs).filter (fun e => e ≠ x)

/-- The four hard-coded fallback encodings. -/
def defaultEncodings : List String := ["utf-8", "latin-1", "cp1252", "iso-8859-1"]

/-- The candidate encoding list of `read_csv_with_encoding` (lines 94-95). -/
def encodingsToTry (detected : String) : List String :=
  dedupFirst (detected :: defaultEncodings)

/-- `read_csv_with_encoding`: detected guess prepended to the fixed fallback
list, de-duplicated, then tried in order. -/
def read_csv_with_encoding (p : PdRead) (detected : String) : Option DataFrame :=
  tryEncodings p (encodingsToTry detected)

/-! ### Numeric precision normalizer (`preserve_numeric_precision`,
main.py lines 139-157) -/

/-- `pd.to_numeric(value, errors=coerce)` on one cell: missing and
unparseable strings become NaN (`none`); numbers pass through; booleans
coerce to 0/1. The string parser `parse` is the pandas numeric-literal
oracle, passed in explicitly. -/
def toNumericCell (parse : String → Option Q) : CellVal → Option Q
  | CellVal.missing => none
  | CellVal.str s => parse s
  | CellVal.num q => some q
  | CellVal.boolV b => some (qInt (if b then 1 else 0))

/-- The guarded all-integers test
`(numeric_col.notna() & (numeric_col == numeric_col.astype(int))).all()`:
`astype(int)` raises (`none`) when any entry is NaN; otherwise, every entry
must equal its integer truncation. -/
def astypeIntAll (ncol : List (Option Q)) : Option Bool :=
  if ncol.any (fun o => o.isNone) then none
  else some (ncol.all (fun o =>
    match o with
    | some q => qIsInt q
    | none => true))

/-- Body of `preserve_numeric_precision` for one object column: `some`
replacement values exactly when the source assigns `df_copy[col] =
numeric_col`; `none` when the column is left unchanged (all-NaN coercion,
count mismatch, all-integers, or the `astype(int)` exception). -/
def numericReplacement (parse : String → Option Q) (vals : List CellVal) :
    Option (List CellVal) :=
  let ncol := vals.map (toNumericCell parse)
  if ncol.all (fun o => o.isNone) then none
  else if (ncol.filterMap id).length = (vals.filter (fun v => !isNaCell v)).length then
    match astypeIntAll ncol with
    | none => none
    | some true => none
    | some false => some ((ncol.filterMap id).map CellVal.num)
  else none

/-- `preserve_numeric_precision` on one column: only object (free-text)
columns are touched; a replaced column gets the float64 dtype of the
fractional-valued `pd.to_numeric` result. -/
def preserveColumn (parse : String → Option Q) (c : Column) : Column :=
  if c.dtype = Dtype.objectD then
    match numericReplacement parse c.vals with
    | some nv => { name := c.name, dtype := Dtype.float64, vals := nv }
    | none => c
  else c

/-- `preserve_numeric_precision`: per-column normalization over a copy. -/
def preserve_numeric_precision (parse : String → Option Q) (df : DataFrame) :
    DataFrame :=
  { cols := df.cols.map (preserveColumn parse) }

/-- Concrete numeric-literal parser used as the `parse` oracle in witnesses:
optional sign, decimal digits, optional fractional part. -/
def natOfDigits (cs : List Char) : Nat :=
  cs.foldl (fun acc c => acc * 10 + (c.toNat - 48)) 0

def allDigits (cs : List Char) : Bool := cs.all Char.isDigit

/-- Split a character list at the first dot. -/
def splitAtDot : List Char → List Char × Option (List Char)
  | [] => ([], none)
  | c :: cs =>
    if c = '.' then ([], some cs)
    else
      let r := splitAtDot cs
      (c :: r.1, r.2)

def parseDecimal (s : String) : Option Q :=
  let body0 := s.data
  if body0.isEmpty then none
  else
    let signed : Bool × List Char :=
      match body0 with
      | '-' :: rest => (true, rest)
      | '+' :: rest => (false, rest)
      | _ => (false, body0)
    let sign := signed.1
    let body := signed.2
    let parts := splitAtDot body
    match parts.2 with
    | none =>
      if !body.isEmpty && allDigits body then
        let v : Int := (natOfDigits body : Int)
        some { num := if sign then -v else v, den := 1 }
      else none
    | some fp =>
      let ip := parts.1
      if (!ip.isEmpty || !fp.isEmpty) && allDigits ip && allDigits fp then
        let scale : Nat := 10 ^ fp.length
        let mag : Int := (natOfDigits ip * scale + natOfDigits fp : Nat)
        some { num := if sign then -mag else mag, den := scale }
      else none

/-! ### Conversion validator (`validate_conversion`, main.py lines 160-210)
and its result type (lines 29-43) -/

structure ValidationResult where
  dimensions_match : Bool
  columns_match : Bool
  data_types_preserved : Bool
  sample_data_match : Bool
deriving DecidableEq, Repr

/-- `ValidationResult.is_valid`: conjunction of the four flags. -/
def ValidationResult.is_valid (r : ValidationResult) : Bool :=
  r.dimensions_match && r.columns_match && r.data_types_preserved && r.sample_data_match

/-- The all-false result produced by every failure path. -/
def allFalse : ValidationResult :=
  { dimensions_match := false, columns_match := false
    data_types_preserved := false, sample_data_match := false }

/-- The dtype loop (lines 171-180): looking up `df_xlsx[col]` raises when the
column is absent; a mismatch of non-numeric kinds clears the flag and the
loop continues. -/
def dtypesCheck (a b : DataFrame) : Except Unit Bool :=
  a.cols.foldlM
    (fun acc c =>
      match findCol b c.name with
      | none => Except.error ()
      | some cb =>
        if c.dtype = cb.dtype then pure acc
        else if isNumericDtype c.dtype && isNumericDtype cb.dtype then pure acc
        else pure false)
    true

/-- `pd.api.types.is_numeric_dtype(type(value))` on a scalar: NaN is a float,
numbers and booleans are numeric, strings are not. -/
def isNumericVal : CellVal → Bool
  | CellVal.missing => true
  | CellVal.num _ => true
  | CellVal.boolV _ => true
  | CellVal.str _ => false

/-- `float(value)` where defined; `none` is NaN. -/
def cellFloat : CellVal → Option Q
  | CellVal.num q => some q
  | CellVal.boolV b => some (qInt (if b then 1 else 0))
  | _ => none

/-- `str(value)`. Exact Python float formatting is immaterial to every claim
(it is only reached on mixed-kind comparisons); numbers print as
numerator/denominator, NaN prints as nan. -/
def cellStr : CellVal → String
  | CellVal.missing => "nan"
  | CellVal.num q => toString q.num ++ "/" ++ toString q.den
  | CellVal.str s => s
  | CellVal.boolV b => if b then "True" else "False"

/-- `abs(float(a) - float(b)) > 1e-6`, with the IEEE rule that any comparison
against NaN is false. -/
def numMismatch (a b : CellVal) : Bool :=
  match cellFloat a, cellFloat b with
  | some x, some y => qLt { num := 1, den := 1000000 } (qAbs (qSub x y))
  | _, _ => false

/-- One cell comparison of the sample loop (lines 186-199): `true` means a
mismatch was recorded. -/
def cellMismatch (cv xv : CellVal) : Bool :=
  if isNaCell cv && isNaCell xv then false
  else if isNumericVal cv && isNumericVal xv then numMismatch cv xv
  else cellStr cv != cellStr xv

/-- The sample-data loop (lines 182-199): checks the first `min 5 rows` rows,
never short-circuiting, recording mismatches; cell accesses into the produced
table raise when the row or column is absent. -/
def sampleCheck (a b : DataFrame) : Except Unit Bool :=
  if nRows a = 0 then pure true
  else
    (List.range (min 5 (nRows a))).foldlM
      (fun acc i =>
        a.cols.foldlM
          (fun acc2 c =>
            match getCell a i c.name, getCell b i c.name with
            | Except.ok cv, Except.ok xv =>
              pure (if cellMismatch cv xv then false else acc2)
            | _, _ => Except.error ())
          acc)
      true

/-- The flag computation of `validate_conversion` once both tables are in
memory; `Except.error` models an uncaught Python exception inside the `try`
block. -/
def computeFlags (a b : DataFrame) : Except Unit ValidationResult :=
  match dtypesCheck a b with
  | Except.error e => Except.error e
  | Except.ok dtp =>
    match sampleCheck a b with
    | Except.error e => Except.error e
    | Except.ok sdm =>
      Except.ok
        { dimensions_match := decide (shape a = shape b)
          columns_match := decide (colNames a = colNames b)
          data_types_preserved := dtp
          sample_data_match := sdm }

/-- `validate_conversion`: the source re-read outcome (via the resilient
reader) and the `pd.read_excel` outcome are inputs; a `None` source read, a
raising excel read, or any exception in the flag computation yields the
all-false result. -/
def validate_conversion (srcRead : Option DataFrame)
    (xlsxRead : Except Unit DataFrame) : ValidationResult :=
  match srcRead with
  | none => allFalse
  | some dfCsv =>
    match xlsxRead with
    | Except.error _ => allFalse
    | Except.ok dfXlsx =>
      match computeFlags dfCsv dfXlsx with
      | Except.error _ => allFalse
      | Except.ok r => r

/-! ### Conversion orchestrator (`process_csv_file`, main.py lines 213-255) -/

/-- The external responses one `process_csv_file` run depends on: the first
CSV read, whether the `ExcelWriter` block raises, and the two re-reads done
inside `validate_conversion`. -/
structure CsvEnv where
  readResult : Option DataFrame
  writeThrows : Bool
  rereadResult : Option DataFrame
  xlsxReadResult : Except Unit DataFrame

/-- Observable outcome of `process_csv_file`: the returned boolean, whether
`file_path.unlink()` ran, and the artifact written to `xlsx_path` (`none`
when no complete artifact was produced). -/
structure ProcessResult where
  returned : Bool
  originalDeleted : Bool
  artifact : Option DataFrame
deriving DecidableEq, Repr

/-- `process_csv_file`: read, skip empty tables, normalize, write, validate,
and delete the original exactly when validation passes. A raising write is
caught by the top-level handler before any complete artifact exists. -/
def process_csv_file (parse : String → Option Q) (env : CsvEnv) : ProcessResult :=
  match env.readResult with
  | none => { returned := false, originalDeleted := false, artifact := none }
  | some df =>
    if dfEmpty df then { returned := false, originalDeleted := false, artifact := none }
    else
      let dfProcessed := preserve_numeric_precision parse df
      if env.writeThrows then
        { returned := false, originalDeleted := false, artifact := none }
      else
        let v := validate_conversion env.rereadResult env.xlsxReadResult
        if v.is_valid then
          { returned := true, originalDeleted := true, artifact := some dfProcessed }
        else
          { returned := false, originalDeleted := false, artifact := some dfProcessed }

/-! ## Theorems -/

/-- C6: the detector result is used as follows: a non-null (and, by Python
truthiness, non-empty) encoding with confidence strictly above 0.7 is
returned as is; a null encoding or confidence at or below the threshold
falls back to the fixed default utf-8; the function always returns either
the detected encoding or utf-8 and its decision logic is total. -/
theorem detect_encoding_policy (r : ChardetResult) :
    (∀ e, r.encoding = some e → e ≠ "" → qLt confidenceThreshold r.confidence = true →
      detect_file_encoding r = e) ∧
    ((r.encoding = none ∨ qLt confidenceThreshold r.confidence = false) →
      detect_file_encoding r = "utf-8") ∧
    (detect_file_encoding r = "utf-8" ∨ r.encoding = some (detect_file_encoding r)) := by
  obtain ⟨enc, conf⟩ := r
  cases enc with
  | none =>
    refine ⟨fun e h => ?_, fun _ => rfl, Or.inl rfl⟩
    cases h
  | some e =>
    refine ⟨?_, ?_, ?_⟩
    · intro f hf hne hq
      have hef : e = f := by cases hf; rfl
      subst hef
      have hemp : e.isEmpty = false := by
        cases hcase : e.isEmpty with
        | false => rfl
        | true => exact absurd ((String.isEmpty_iff e).mp hcase) hne
      simp [detect_file_encoding, hemp, hq]
    · rintro (h | h)
      · cases h
      · simp [detect_file_encoding, h]
    · by_cases hcond : (!e.isEmpty && qLt confidenceThreshold conf) = true
      · exact Or.inr (by simp [detect_file_encoding, hcond])
      · have : (!e.isEmpty && qLt confidenceThreshold conf) = false :=
          Bool.not_eq_true _ ▸ (by simpa using hcond)
        exact Or.inl (by simp [detect_file_encoding, this])

/-- Witness for C6: a confidently detected latin-1 is returned unchanged. -/
theorem detect_encoding_policy_witness :
    detect_file_encoding { encoding := some "latin-1", confidence := { num := 9, den := 10 } }
      = "latin-1" :=
  (detect_encoding_policy
    { encoding := some "latin-1", confidence := { num := 9, den := 10 } }).1
    "latin-1" rfl (by decide) (by decide)

/-- C9: `validate_conversion` is deterministic and stateless: two calls whose
re-read outcomes agree (the unchanged-pair assumption) produce equal
ValidationResults. -/
theorem validate_deterministic (s1 s2 : Option DataFrame)
    (x1 x2 : Except Unit DataFrame) (hs : s1 = s2) (hx : x1 = x2) :
    validate_conversion s1 x1 = validate_conversion s2 x2 := by
  subst hs; subst hx; rfl

/-- Witness for C9 at a concrete unchanged pair. -/
theorem validate_deterministic_witness :
    validate_conversion (some { cols := [] }) (Except.error ())
      = validate_conversion (some { cols := [] }) (Except.error ()) :=
  validate_deterministic (some { cols := [] }) (some { cols := [] })
    (Except.error ()) (Except.error ()) rfl rfl

/-- C4: `validate_conversion` never raises and fails closed: an unreadable
source, a raising excel read, or any exception inside the flag computation
each yield the result with all four flags false. -/
theorem validate_fails_closed :
    (∀ x, validate_conversion none x = allFalse) ∧
    (∀ a, validate_conversion (some a) (Except.error ()) = allFalse) ∧
    (∀ a b, computeFlags a b = Except.error () →
      validate_conversion (some a) (Except.ok b) = allFalse) := by
  refine ⟨fun x => rfl, fun a => rfl, fun a b h => ?_⟩
  simp [validate_conversion, h]

/-- Witness for C4: a produced table missing the source's column makes the
flag computation raise, and validation returns all-false. -/
theorem validate_fails_closed_witness :
    validate_conversion
      (some { cols := [{ name := "a", dtype := Dtype.objectD, vals := [] }] })
      (Except.ok { cols := [] }) = allFalse :=
  validate_fails_closed.2.2
    { cols := [{ name := "a", dtype := Dtype.objectD, vals := [] }] }
    { cols := [] } rfl

/-- C5 (amended): provided the flag computation completes without an
internal exception, the returned result is exactly its output and its
dimensions flag is true precisely when the two shapes coincide, regardless
of the other three flags. When the computation raises (for example, a
source column absent from the produced table), all four flags are false
even if the shapes coincide. -/
theorem dimensions_flag_of_flag_computation (a b : DataFrame)
    (r : ValidationResult) (h : computeFlags a b = Except.ok r) :
    validate_conversion (some a) (Except.ok b) = r ∧
    (r.dimensions_match = true ↔ shape a = shape b) := by
  refine ⟨by simp [validate_conversion, h], ?_⟩
  cases hd : dtypesCheck a b with
  | error e => simp [computeFlags, hd] at h
  | ok dtp =>
    cases hs : sampleCheck a b with
    | error e => simp [computeFlags, hd, hs] at h
    | ok sdm =>
      simp only [computeFlags, hd, hs] at h
      cases h
      simp

/-- Witness for C5 at a pair whose flag computation completes. -/
theorem dimensions_flag_of_flag_computation_witness :
    validate_conversion
      (some { cols := [{ name := "a", dtype := Dtype.int64, vals := [CellVal.num (qInt 1)] }] })
      (Except.ok { cols := [{ name := "a", dtype := Dtype.int64, vals := [CellVal.num (qInt 1)] }] })
      = { dimensions_match := true, columns_match := true
          data_types_preserved := true, sample_data_match := true } ∧
    (({ dimensions_match := true, columns_match := true
        data_types_preserved := true, sample_data_match := true } : ValidationResult).dimensions_match = true ↔
      shape { cols := [{ name := "a", dtype := Dtype.int64, vals := [CellVal.num (qInt 1)] }] }
        = shape { cols := [{ name := "a", dtype := Dtype.int64, vals := [CellVal.num (qInt 1)] }] }) :=
  dimensions_flag_of_flag_computation
    { cols := [{ name := "a", dtype := Dtype.int64, vals := [CellVal.num (qInt 1)] }] }
    { cols := [{ name := "a", dtype := Dtype.int64, vals := [CellVal.num (qInt 1)] }] }
    { dimensions_match := true, columns_match := true
      data_types_preserved := true, sample_data_match := true } rfl

/-- Counterexample to C5 as stated: both tables are re-read successfully and
have identical shapes (zero rows, one column), yet the dimensions flag of
the returned result is false, because the differing column name makes the
dtype loop raise and the catch-all wipes every flag. -/
theorem dimensions_flag_counterexample :
    shape { cols := [{ name := "a", dtype := Dtype.objectD, vals := ([] : List CellVal) }] }
      = shape { cols := [{ name := "b", dtype := Dtype.objectD, vals := ([] : List CellVal) }] } ∧
    validate_conversion
      (some { cols := [{ name := "a", dtype := Dtype.objectD, vals := [] }] })
      (Except.ok { cols := [{ name := "b", dtype := Dtype.objectD, vals := [] }] })
      = allFalse := by
  exact ⟨rfl, rfl⟩

/-- C8: an unreadable CSV, or one whose table has zero data rows, makes
`process_csv_file` return false, write no artifact, and keep the original. -/
theorem process_skips_unreadable_and_empty (parse : String → Option Q) (env : CsvEnv) :
    (env.readResult = none →
      process_csv_file parse env
        = { returned := false, originalDeleted := false, artifact := none }) ∧
    (∀ df, env.readResult = some df → nRows df = 0 →
      process_csv_file parse env
        = { returned := false, originalDeleted := false, artifact := none }) := by
  constructor
  · intro h
    simp [process_csv_file, h]
  · intro df h hr
    have hemp : dfEmpty df = true := by simp [dfEmpty, hr]
    simp [process_csv_file, h, hemp]

/-- Witness for C8: a headers-only table (one column, zero rows) is
skipped. -/
theorem process_skips_unreadable_and_empty_witness :
    process_csv_file parseDecimal
      { readResult := some { cols := [{ name := "a", dtype := Dtype.objectD, vals := [] }] }
        writeThrows := false, rereadResult := none, xlsxReadResult := Except.error () }
      = { returned := false, originalDeleted := false, artifact := none } :=
  (process_skips_unreadable_and_empty parseDecimal
    { readResult := some { cols := [{ name := "a", dtype := Dtype.objectD, vals := [] }] }
      writeThrows := false, rereadResult := none, xlsxReadResult := Except.error () }).2
    { cols := [{ name := "a", dtype := Dtype.objectD, vals := [] }] } rfl rfl

lemma dedupFirst_defaults : dedupFirst defaultEncodings = defaultEncodings := by decide

/-- C7: the candidate encoding list is the detected guess followed by the
fixed fallbacks with the guess removed; it is duplicate-free, preserves
first-seen order (it is a sublist of the raw five-element list), has exactly
the raw list's members, and the reader folds over exactly this list. -/
theorem encoding_candidates_spec (p : PdRead) (d : String) :
    encodingsToTry d = d :: defaultEncodings.filter (fun e => e ≠ d) ∧
    (encodingsToTry d).Nodup ∧
    (∀ e, e ∈ encodingsToTry d ↔ e ∈ d :: defaultEncodings) ∧
    List.Sublist (encodingsToTry d) (d :: defaultEncodings) ∧
    read_csv_with_encoding p d = tryEncodings p (encodingsToTry d) := by
  have h1 : encodingsToTry d = d :: defaultEncodings.filter (fun e => e ≠ d) := by
    rw [encodingsToTry, dedupFirst, dedupFirst_defaults]
  have hnd : defaultEncodings.Nodup := by decide
  refine ⟨h1, ?_, ?_, ?_, rfl⟩
  · rw [h1]
    refine List.Nodup.cons ?_ (hnd.filter _)
    intro hmem
    have h2 := List.mem_filter.mp hmem
    simp at h2
  · intro e
    rw [h1]
    simp only [List.mem_cons, List.mem_filter, decide_eq_true_eq]
    by_cases he : e = d
    · subst he; simp
    · simp [he]
  · rw [h1]
    exact List.Sublist.cons₂ d (List.filter_sublist _)

lemma try_parse_none_iff (p : PdRead) (enc : String) (s : ParseStrategy) :
    try_parse_csv_with_strategy p enc s = none ↔ ∀ df, p enc s ≠ PdOutcome.ok df := by
  cases h : p enc s with
  | ok df =>
    simp only [try_parse_csv_with_strategy, h]
    constructor
    · intro hc; cases hc
    · intro hall; exact absurd rfl (hall df)
  | unicodeError => simp [try_parse_csv_with_strategy, h]
  | parserError msg => simp [try_parse_csv_with_strategy, h]
  | otherError => simp [try_parse_csv_with_strategy, h]

lemma firstSuccess_none_iff (p : PdRead) (enc : String) (ss : List ParseStrategy) :
    firstSuccess p enc ss = none ↔
      ∀ s ∈ ss, try_parse_csv_with_strategy p enc s = none := by
  induction ss with
  | nil => simp [firstSuccess]
  | cons s rest ih =>
    cases h : try_parse_csv_with_strategy p enc s with
    | some df =>
      simp only [firstSuccess, h]
      constructor
      · intro hc; cases hc
      · intro hall
        have hs := hall s (List.mem_cons_self s rest)
        rw [h] at hs; cases hs
    | none =>
      simp only [firstSuccess, h]
      rw [ih]
      constructor
      · intro hall t ht
        rcases List.mem_cons.mp ht with rfl | htr
        · exact h
        · exact hall t htr
      · intro hall t ht
        exact hall t (List.mem_cons_of_mem s ht)

lemma firstSuccess_append_of_fail (p : PdRead) (enc : String)
    (ss1 ss2 : List ParseStrategy)
    (h : ∀ t ∈ ss1, try_parse_csv_with_strategy p enc t = none) :
    firstSuccess p enc (ss1 ++ ss2) = firstSuccess p enc ss2 := by
  induction ss1 with
  | nil => rfl
  | cons s rest ih =>
    have hs := h s (List.mem_cons_self s rest)
    simp only [List.cons_append, firstSuccess, hs]
    exact ih (fun t ht => h t (List.mem_cons_of_mem s ht))

/-- C3: on an initial parse failure at an encoding with a field-count
mismatch message, the reader does not advance to the next encoding: it runs
the five fixed fallback strategies against the same encoding, returns the
first success (a prefix of failing strategies is skipped), advances to the
remaining encodings only when all five fail, and treats any throwing
relaxation as failed. -/
theorem reader_relaxations_on_field_mismatch (p : PdRead) (enc : String)
    (rest : List String) (msg : String)
    (hinit : p enc defaultStrategy = PdOutcome.parserError msg)
    (hmm : isFieldMismatch msg = true) :
    (∀ df, firstSuccess p enc fallbackStrategies = some df →
      tryEncodings p (enc :: rest) = some df) ∧
    (firstSuccess p enc fallbackStrategies = none →
      tryEncodings p (enc :: rest) = tryEncodings p rest) ∧
    (∀ ss1 s ss2 df, fallbackStrategies = ss1 ++ s :: ss2 →
      (∀ t ∈ ss1, try_parse_csv_with_strategy p enc t = none) →
      try_parse_csv_with_strategy p enc s = some df →
      tryEncodings p (enc :: rest) = some df) ∧
    (firstSuccess p enc fallbackStrategies = none ↔
      ∀ s ∈ fallbackStrategies, try_parse_csv_with_strategy p enc s = none) ∧
    (∀ s, (∀ df, p enc s ≠ PdOutcome.ok df) →
      try_parse_csv_with_strategy p enc s = none) := by
  have hstep1 : ∀ df, firstSuccess p enc fallbackStrategies = some df →
      tryEncodings p (enc :: rest) = some df := by
    intro df h
    simp [tryEncodings, hinit, hmm, h]
  refine ⟨hstep1, ?_, ?_, firstSuccess_none_iff p enc _, ?_⟩
  · intro h
    simp [tryEncodings, hinit, hmm, h]
  · intro ss1 s ss2 df hsplit hfail hok
    refine hstep1 df ?_
    rw [hsplit, firstSuccess_append_of_fail p enc ss1 (s :: ss2) hfail]
    simp [firstSuccess, hok]
  · intro s h
    exact (try_parse_none_iff p enc s).mpr h

/-- A pandas oracle for the C3 witness: every configuration raises a
field-count `ParserError` except the third fallback (strict engine with
quote-all), which succeeds. -/
def oracleC3 : PdRead := fun _ s =>
  if s = { engine := "c", onBadLines := "error", quoting := QUOTE_ALL, delimiter := ',' } then
    PdOutcome.ok { cols := [{ name := "x", dtype := Dtype.int64, vals := [CellVal.num (qInt 1)] }] }
  else PdOutcome.parserError "Expected 5 fields in line 3, saw 7"

/-- Witness for C3: the reader recovers on the same encoding through the
third fallback strategy. -/
theorem reader_relaxations_on_field_mismatch_witness :
    tryEncodings oracleC3 ["utf-8"]
      = some { cols := [{ name := "x", dtype := Dtype.int64, vals := [CellVal.num (qInt 1)] }] } :=
  (reader_relaxations_on_field_mismatch oracleC3 "utf-8" []
    "Expected 5 fields in line 3, saw 7" rfl (by decide)).1
    { cols := [{ name := "x", dtype := Dtype.int64, vals := [CellVal.num (qInt 1)] }] } rfl

lemma isNaCell_true_iff (v : CellVal) : isNaCell v = true ↔ v = CellVal.missing := by
  cases v <;> simp [isNaCell]

lemma countP_lt_of_mem {α : Type} {p q : α → Bool} {l : List α}
    (himp : ∀ x ∈ l, p x = true → q x = true) (x0 : α) (hx0 : x0 ∈ l)
    (hq : q x0 = true) (hp : p x0 = false) :
    l.countP p < l.countP q := by
  induction l with
  | nil => cases hx0
  | cons a t ih =>
    rw [List.countP_cons, List.countP_cons]
    rcases List.mem_cons.mp hx0 with rfl | hmem
    · have hle : t.countP p ≤ t.countP q :=
        List.countP_mono_left (fun x hx hpx => himp x (List.mem_cons_of_mem _ hx) hpx)
      rw [hp, hq, if_neg Bool.false_ne_true, if_pos rfl]
      omega
    · have hlt := ih (fun x hx hpx => himp x (List.mem_cons_of_mem _ hx) hpx) hmem
      cases hpa : p a with
      | true =>
        have hqa := himp a (List.mem_cons_self _ _) hpa
        rw [hqa]
        omega
      | false =>
        cases hqa : q a with
        | true =>
          rw [if_neg Bool.false_ne_true, if_pos rfl]
          omega
        | false => omega

lemma coerced_isSome_imp (parse : String → Option Q) (v : CellVal)
    (h : (toNumericCell parse v).isSome = true) : isNaCell v = false := by
  cases v with
  | missing => simp [toNumericCell] at h
  | num q => rfl
  | str s => rfl
  | boolV b => rfl

lemma coerced_count_eq (parse : String → Option Q) (vals : List CellVal)
    (hco : ∀ v ∈ vals, isNaCell v = false → (toNumericCell parse v).isSome = true) :
    (vals.filterMap (toNumericCell parse)).length
      = (vals.filter (fun v => !isNaCell v)).length := by
  rw [List.length_filterMap_eq_countP, ← List.countP_eq_length_filter]
  apply List.countP_congr
  intro v hv
  constructor
  · intro h
    simp [coerced_isSome_imp parse v h]
  · intro h
    apply hco v hv
    simpa using h

lemma coerced_count_lt (parse : String → Option Q) (vals : List CellVal)
    (v0 : CellVal) (hmem : v0 ∈ vals) (hna : isNaCell v0 = false)
    (hn : toNumericCell parse v0 = none) :
    (vals.filterMap (toNumericCell parse)).length
      < (vals.filter (fun v => !isNaCell v)).length := by
  rw [List.length_filterMap_eq_countP, ← List.countP_eq_length_filter]
  apply countP_lt_of_mem (fun v _ h => by simp [coerced_isSome_imp parse v h]) v0 hmem
  · simp [hna]
  · simp [hn]

lemma any_isNone_false_of_all_coerce (parse : String → Option Q) (vals : List CellVal)
    (hco : ∀ v ∈ vals, (toNumericCell parse v).isSome = true) :
    (vals.map (toNumericCell parse)).any (fun o => o.isNone) = false := by
  cases hc : (vals.map (toNumericCell parse)).any (fun o => o.isNone) with
  | false => rfl
  | true =>
    obtain ⟨o, ho, hno⟩ := List.any_eq_true.mp hc
    obtain ⟨v, hv, rfl⟩ := List.mem_map.mp ho
    have h1 := hco v hv
    simp only [Option.isNone_iff_eq_none] at hno
    rw [hno] at h1
    cases h1

lemma numericReplacement_none_of_missing (parse : String → Option Q)
    (vals : List CellVal) (hmiss : ∃ v ∈ vals, isNaCell v = true)
    (hco : ∀ v ∈ vals, isNaCell v = false → (toNumericCell parse v).isSome = true) :
    numericReplacement parse vals = none := by
  obtain ⟨v0, hm, hna⟩ := hmiss
  have hv0 : v0 = CellVal.missing := (isNaCell_true_iff v0).mp hna
  subst hv0
  have hnone : (none : Option Q) ∈ vals.map (toNumericCell parse) :=
    List.mem_map.mpr ⟨CellVal.missing, hm, rfl⟩
  cases hall : (vals.map (toNumericCell parse)).all (fun o => o.isNone) with
  | true => simp [numericReplacement, hall]
  | false =>
    have hlen := coerced_count_eq parse vals hco
    have hany : (vals.map (toNumericCell parse)).any (fun o => o.isNone) = true :=
      List.any_eq_true.mpr ⟨none, hnone, rfl⟩
    simp [numericReplacement, hall, hlen, astypeIntAll, hany]

lemma numericReplacement_none_of_uncoercible (parse : String → Option Q)
    (vals : List CellVal) (v0 : CellVal) (hmem : v0 ∈ vals)
    (hna : isNaCell v0 = false) (hn : toNumericCell parse v0 = none) :
    numericReplacement parse vals = none := by
  cases hall : (vals.map (toNumericCell parse)).all (fun o => o.isNone) with
  | true => simp [numericReplacement, hall]
  | false =>
    have hlt := coerced_count_lt parse vals v0 hmem hna hn
    have hne := Nat.ne_of_lt hlt
    simp [numericReplacement, hall, hne]

lemma numericReplacement_none_of_allInt (parse : String → Option Q)
    (vals : List CellVal)
    (_hna : ∀ v ∈ vals, isNaCell v = false)
    (hco : ∀ v ∈ vals, (toNumericCell parse v).isSome = true)
    (hint : ∀ v ∈ vals, ∀ q, toNumericCell parse v = some q → qIsInt q = true) :
    numericReplacement parse vals = none := by
  cases hall : (vals.map (toNumericCell parse)).all (fun o => o.isNone) with
  | true => simp [numericReplacement, hall]
  | false =>
    have hlen := coerced_count_eq parse vals (fun v hv _ => hco v hv)
    have hnone := any_isNone_false_of_all_coerce parse vals hco
    have hallint : ((vals.map (toNumericCell parse)).all (fun o =>
        match o with
        | some q => qIsInt q
        | none => true)) = true := by
      apply List.all_eq_true.mpr
      intro o ho
      obtain ⟨v, hv, rfl⟩ := List.mem_map.mp ho
      cases hq : toNumericCell parse v with
      | none => simp
      | some q => simpa [hq] using hint v hv q hq
    simp [numericReplacement, hall, hlen, astypeIntAll, hnone, hallint]

lemma numericReplacement_some (parse : String → Option Q) (vals : List CellVal)
    (_hna : ∀ v ∈ vals, isNaCell v = false)
    (hco : ∀ v ∈ vals, (toNumericCell parse v).isSome = true)
    (hfr : ∃ v ∈ vals, ∃ q, toNumericCell parse v = some q ∧ qIsInt q = false) :
    numericReplacement parse vals
      = some (((vals.map (toNumericCell parse)).filterMap id).map CellVal.num) := by
  obtain ⟨v0, hv0, q0, hq0, hqi⟩ := hfr
  have hall : (vals.map (toNumericCell parse)).all (fun o => o.isNone) = false := by
    apply List.all_eq_false.mpr
    exact ⟨toNumericCell parse v0, List.mem_map_of_mem _ hv0, by simp [hq0]⟩
  have hlen := coerced_count_eq parse vals (fun v hv _ => hco v hv)
  have hnone := any_isNone_false_of_all_coerce parse vals hco
  have hallint : ((vals.map (toNumericCell parse)).all (fun o =>
      match o with
      | some q => qIsInt q
      | none => true)) = false := by
    apply List.all_eq_false.mpr
    refine ⟨some q0, ?_, by simp [hqi]⟩
    rw [← hq0]
    exact List.mem_map_of_mem _ hv0
  simp [numericReplacement, hall, hlen, astypeIntAll, hnone, hallint]

/-- C2 (amended): a free-text column is replaced by its coerced numeric form
exactly when it contains no missing values, every value coerces to a number,
and at least one coerced value has a nonzero fractional part; in every other
case (a missing value anywhere, any non-numeric text, or all-integer
coercions) the column is left unchanged as text. -/
theorem normalize_replaces_iff (parse : String → Option Q) (c : Column)
    (hobj : c.dtype = Dtype.objectD) :
    (((∀ v ∈ c.vals, isNaCell v = false) ∧
      (∀ v ∈ c.vals, (toNumericCell parse v).isSome = true) ∧
      (∃ v ∈ c.vals, ∃ q, toNumericCell parse v = some q ∧ qIsInt q = false)) →
      preserveColumn parse c
        = { name := c.name, dtype := Dtype.float64,
            vals := ((c.vals.map (toNumericCell parse)).filterMap id).map CellVal.num }) ∧
    (¬ ((∀ v ∈ c.vals, isNaCell v = false) ∧
      (∀ v ∈ c.vals, (toNumericCell parse v).isSome = true) ∧
      (∃ v ∈ c.vals, ∃ q, toNumericCell parse v = some q ∧ qIsInt q = false)) →
      preserveColumn parse c = c) := by
  constructor
  · rintro ⟨h1, h2, h3⟩
    have hrep := numericReplacement_some parse c.vals h1 h2 h3
    simp [preserveColumn, hobj, hrep]
  · intro hnot
    have hrep : numericReplacement parse c.vals = none := by
      by_cases h1 : ∀ v ∈ c.vals, isNaCell v = false
      · by_cases h2 : ∀ v ∈ c.vals, (toNumericCell parse v).isSome = true
        · have h3 : ¬ ∃ v ∈ c.vals, ∃ q, toNumericCell parse v = some q ∧ qIsInt q = false :=
            fun hc => hnot ⟨h1, h2, hc⟩
          push_neg at h3
          apply numericReplacement_none_of_allInt parse c.vals h1 h2
          intro v hv q hq
          have hne := h3 v hv q hq
          cases hcase : qIsInt q with
          | false => exact absurd hcase hne
          | true => rfl
        · push_neg at h2
          obtain ⟨v0, hv0, hns⟩ := h2
          have hnone : toNumericCell parse v0 = none := by
            cases hx : toNumericCell parse v0 with
            | none => rfl
            | some a => rw [hx] at hns; simp at hns
          exact numericReplacement_none_of_uncoercible parse c.vals v0 hv0 (h1 v0 hv0) hnone
      · push_neg at h1
        obtain ⟨v0, hv0, hna⟩ := h1
        have hna2 : isNaCell v0 = true := by
          cases hcase : isNaCell v0 with
          | false => exact absurd hcase hna
          | true => rfl
        by_cases hco2 : ∀ v ∈ c.vals, isNaCell v = false → (toNumericCell parse v).isSome = true
        · exact numericReplacement_none_of_missing parse c.vals ⟨v0, hv0, hna2⟩ hco2
        · push_neg at hco2
          obtain ⟨w, hw, hwna, hwns⟩ := hco2
          have hwnone : toNumericCell parse w = none := by
            cases hx : toNumericCell parse w with
            | none => rfl
            | some a => rw [hx] at hwns; simp at hwns
          exact numericReplacement_none_of_uncoercible parse c.vals w hw hwna hwnone
    simp [preserveColumn, hobj, hrep]

/-- Witness for C2 (amended): the all-fractional column becomes numeric. -/
theorem normalize_replaces_iff_witness :
    preserveColumn parseDecimal
      { name := "v", dtype := Dtype.objectD
        vals := [CellVal.str "1.5", CellVal.str "2.25", CellVal.str "3.0"] }
      = { name := "v", dtype := Dtype.float64,
          vals := [CellVal.num { num := 15, den := 10 },
                   CellVal.num { num := 225, den := 100 },
                   CellVal.num { num := 30, den := 10 }] } :=
  (normalize_replaces_iff parseDecimal
    { name := "v", dtype := Dtype.objectD
      vals := [CellVal.str "1.5", CellVal.str "2.25", CellVal.str "3.0"] } rfl).1
    ⟨by decide, by decide,
     ⟨CellVal.str "1.5", by decide, { num := 15, den := 10 }, by decide, by decide⟩⟩

/-- Counterexample to C2 as stated: in the column [NaN, 1.5] every
non-missing value coerces and a coerced value has a nonzero fractional
part, so the claim requires replacement by the numeric form, but the code
leaves the column unchanged as text: `numeric_col.astype(int)` raises on
the NaN and the per-column handler skips the column. -/
theorem normalize_replaces_iff_counterexample :
    (∀ v ∈ [CellVal.missing, CellVal.str "1.5"], isNaCell v = false →
      (toNumericCell parseDecimal v).isSome = true) ∧
    (∃ v ∈ [CellVal.missing, CellVal.str "1.5"],
      ∃ q, toNumericCell parseDecimal v = some q ∧ qIsInt q = false) ∧
    preserveColumn parseDecimal
      { name := "x", dtype := Dtype.objectD, vals := [CellVal.missing, CellVal.str "1.5"] }
      = { name := "x", dtype := Dtype.objectD, vals := [CellVal.missing, CellVal.str "1.5"] } :=
  ⟨by decide,
   ⟨CellVal.str "1.5", by decide, { num := 15, den := 10 }, by decide, by decide⟩,
   by decide⟩

/-- C10: a free-text column with at least one missing value whose non-missing
values all coerce is left unchanged as text, even when fractional values are
present, because `astype(int)` raises on the missing entries and the
per-column exception handler skips the column. -/
theorem normalize_missing_numeric_column_unchanged (parse : String → Option Q)
    (c : Column) (hobj : c.dtype = Dtype.objectD)
    (hmiss : ∃ v ∈ c.vals, isNaCell v = true)
    (hco : ∀ v ∈ c.vals, isNaCell v = false → (toNumericCell parse v).isSome = true) :
    preserveColumn parse c = c := by
  have hrep := numericReplacement_none_of_missing parse c.vals hmiss hco
  simp [preserveColumn, hobj, hrep]

/-- Witness for C10 at the column [NaN, 1.5]. -/
theorem normalize_missing_numeric_column_unchanged_witness :
    preserveColumn parseDecimal
      { name := "ids", dtype := Dtype.objectD, vals := [CellVal.missing, CellVal.str "1.5"] }
      = { name := "ids", dtype := Dtype.objectD, vals := [CellVal.missing, CellVal.str "1.5"] } :=
  normalize_missing_numeric_column_unchanged parseDecimal
    { name := "ids", dtype := Dtype.objectD, vals := [CellVal.missing, CellVal.str "1.5"] }
    rfl (by decide) (by decide)

/-- C1: for a file that was read (non-empty) and written, the return value
and the deletion of the original both equal `is_valid` of the validation,
and on a validation failure the original is kept and the produced artifact
(the normalized table) exists. -/
theorem process_outcome_follows_validation (parse : String → Option Q)
    (env : CsvEnv) (df : DataFrame)
    (hread : env.readResult = some df) (hne : dfEmpty df = false)
    (hw : env.writeThrows = false) :
    ((process_csv_file parse env).returned
      = (validate_conversion env.rereadResult env.xlsxReadResult).is_valid) ∧
    ((process_csv_file parse env).originalDeleted
      = (validate_conversion env.rereadResult env.xlsxReadResult).is_valid) ∧
    ((validate_conversion env.rereadResult env.xlsxReadResult).is_valid = false →
      process_csv_file parse env
        = { returned := false, originalDeleted := false,
            artifact := some (preserve_numeric_precision parse df) }) := by
  cases hv : (validate_conversion env.rereadResult env.xlsxReadResult).is_valid with
  | true =>
    refine ⟨?_, ?_, ?_⟩ <;> simp [process_csv_file, hread, hne, hw, hv]
  | false =>
    refine ⟨?_, ?_, ?_⟩ <;> simp [process_csv_file, hread, hne, hw, hv]

/-- Witness for C1: a one-cell frame whose round trip validates; the
original is removed and true is returned. -/
theorem process_outcome_follows_validation_witness :
    ((process_csv_file parseDecimal
      { readResult := some { cols := [{ name := "a", dtype := Dtype.int64, vals := [CellVal.num (qInt 1)] }] }
        writeThrows := false
        rereadResult := some { cols := [{ name := "a", dtype := Dtype.int64, vals := [CellVal.num (qInt 1)] }] }
        xlsxReadResult := Except.ok { cols := [{ name := "a", dtype := Dtype.int64, vals := [CellVal.num (qInt 1)] }] } }).returned
      = (validate_conversion
          (some { cols := [{ name := "a", dtype := Dtype.int64, vals := [CellVal.num (qInt 1)] }] })
          (Except.ok { cols := [{ name := "a", dtype := Dtype.int64, vals := [CellVal.num (qInt 1)] }] })).is_valid) ∧
    ((process_csv_file parseDecimal
      { readResult := some { cols := [{ name := "a", dtype := Dtype.int64, vals := [CellVal.num (qInt 1)] }] }
        writeThrows := false
        rereadResult := some { cols := [{ name := "a", dtype := Dtype.int64, vals := [CellVal.num (qInt 1)] }] }
        xlsxReadResult := Except.ok { cols := [{ name := "a", dtype := Dtype.int64, vals := [CellVal.num (qInt 1)] }] } }).originalDeleted
      = (validate_conversion
          (some { cols := [{ name := "a", dtype := Dtype.int64, vals := [CellVal.num (qInt 1)] }] })
          (Except.ok { cols := [{ name := "a", dtype := Dtype.int64, vals := [CellVal.num (qInt 1)] }] })).is_valid) ∧
    ((validate_conversion
        (some { cols := [{ name := "a", dtype := Dtype.int64, vals := [CellVal.num (qInt 1)] }] })
        (Except.ok { cols := [{ name := "a", dtype := Dtype.int64, vals := [CellVal.num (qInt 1)] }] })).is_valid = false →
      process_csv_file parseDecimal
        { readResult := some { cols := [{ name := "a", dtype := Dtype.int64, vals := [CellVal.num (qInt 1)] }] }
          writeThrows := false
          rereadResult := some { cols := [{ name := "a", dtype := Dtype.int64, vals := [CellVal.num (qInt 1)] }] }
          xlsxReadResult := Except.ok { cols := [{ name := "a", dtype := Dtype.int64, vals := [CellVal.num (qInt 1)] }] } }
        = { returned := false, originalDeleted := false,
            artifact := some (preserve_numeric_precision parseDecimal
              { cols := [{ name := "a", dtype := Dtype.int64, vals := [CellVal.num (qInt 1)] }] }) }) :=
  process_outcome_follows_validation parseDecimal
    { readResult := some { cols := [{ name := "a", dtype := Dtype.int64, vals := [CellVal.num (qInt 1)] }] }
      writeThrows := false
      rereadResult := some { cols := [{ name := "a", dtype := Dtype.int64, vals := [CellVal.num (qInt 1)] }] }
      xlsxReadResult := Except.ok { cols := [{ name := "a", dtype := Dtype.int64, vals := [CellVal.num (qInt 1)] }] } }
    { cols := [{ name := "a", dtype := Dtype.int64, vals := [CellVal.num (qInt 1)] }] }
    rfl rfl rfl

end AutoProc
